import Mathlib

/-!
Shallow embedding of `src/livestack/stacking_service.py`, the calibration
and incremental stacking pipeline of the livestack repository.

Modelling conventions:
* Pixel grids are flattened to lists of rationals (`Pixels`); numpy
  element-wise operations become `List.zipWith` point operations.  Exact
  rational arithmetic stands for the float domain of the source.
* FITS headers become a record of optional fields (`Header`); reading a
  missing required card raises `KeyError` in astropy, modelled by the
  `PyErr.keyError` error of the `Except` monad.
* The filesystem is abstracted away: the stack store of `DB` is an
  association list from stack key to the stored file, where the stored
  value `none` stands for a file that exists but cannot be decoded, and
  `some (h, d)` for a file decoding to header `h` and pixel data `d`.
  Folder paths are dropped from file names since both stores are rooted
  at fixed folders in the source.
* External collaborators (the gaussian smoothing filter of skimage and
  the astroalign registration routine) are parameters of the model,
  gathered in `Collab`.
* Rendering a preview (`save_stretched_png`) is observable only through
  the artifact location it produces; the model records the produced
  location in an event list (`previews`) of the pipeline state, and the
  per-queue `put` calls of the output fan-out in `sent`.
-/

/-- Frame roles, the three recognised values of the `image_type` tag. -/
inductive Role
  | LIGHT
  | DARK
  | FLAT
deriving DecidableEq, Repr

/-- Python exceptions that the modelled code can raise. -/
inductive PyErr
  | keyError (card : String)
  | attrError
  | exc (msg : String)
deriving DecidableEq, Repr

/-- Flattened pixel grid, exact rational arithmetic for numpy float data. -/
abbrev Pixels := List ℚ

/-- FITS header as read or written by the service: each card optional.
`history` mirrors the single HISTORY entry written by `fits_header`. -/
structure Header where
  instrume : Option String := none
  exptime : Option ℚ := none
  gain : Option Int := none
  ccdtemp : Option ℚ := none
  imagetyp : Option String := none
  object : Option String := none
  filter : Option String := none
  subcount : Option Nat := none
  history : Option String := none
deriving DecidableEq, Repr

/-- Reading a required header card: astropy raises `KeyError(card)` when
the card is absent. -/
def need (v : Option α) (card : String) : Except PyErr α :=
  match v with
  | some x => Except.ok x
  | none => Except.error (PyErr.keyError card)

/-- Round half to even on rationals, the semantics of the Python builtin
`round` used for `EXPTIME` and `CCD-TEMP`. -/
def roundHalfEven (q : ℚ) : ℤ :=
  let f : ℤ := ⌊q⌋
  let r : ℚ := q - f
  if r < 1/2 then f
  else if 1/2 < r then f + 1
  else if f % 2 = 0 then f else f + 1

/-- `round(x, 2)` of Python: round to two decimal places, half to even. -/
def round2 (q : ℚ) : ℚ := (roundHalfEven (q * 100) : ℚ) / 100

/-- Lower-casing of a string, for the case-insensitive type-tag match. -/
def lowerStr (s : String) : String := String.mk (s.toList.map Char.toLower)

/-- Whether `pat` occurs as a contiguous substring of `hay`, the
semantics of `hay.find(pat) >= 0` in Python. -/
def strContainsSub (hay pat : String) : Bool :=
  (hay.toList.tails).any (fun t => pat.toList.isPrefixOf t)

/-- The in-memory image record built by `Image.__init__`.  `role` is
`none` when the type tag matched none of the three recognised
substrings, in which case the Python object has no `image_type`
attribute and later accesses raise `AttributeError`. -/
structure Image where
  data : Pixels
  dark : Option String := none
  subcount : Nat := 1
  camera : String
  exp : ℚ
  gain : Int
  temp : ℤ
  role : Option Role := none
  target : Option String := none
  filter : Option String := none
deriving DecidableEq, Repr

/-- `str(x)` for an optional string, as Python renders `None`. -/
def pyStr (v : Option String) : String :=
  match v with
  | some s => s
  | none => "None"

/-- `Image.__init__`: decode a header and pixel grid into an image
record.  Required common cards are read first (each possibly raising
`KeyError`), then the type tag is matched case-insensitively against
the substrings light, dark, flat in that order; role-specific cards
are read inside the matching branch.  An unrecognised tag leaves the
role unset and the constructor still succeeds. -/
def classify (hdr : Header) (d : Pixels) : Except PyErr Image := do
  let camera ← need hdr.instrume "INSTRUME"
  let expRaw ← need hdr.exptime "EXPTIME"
  let gain ← need hdr.gain "GAIN"
  let tempRaw ← need hdr.ccdtemp "CCD-TEMP"
  let imageType ← need hdr.imagetyp "IMAGETYP"
  let exp := round2 expRaw
  let temp := 5 * roundHalfEven (tempRaw / 5)
  let subcount := match hdr.subcount with
    | some n => if n = 0 then 1 else n
    | none => 1
  if strContainsSub (lowerStr imageType) "light" then do
    let target ← need hdr.object "OBJECT"
    let filt ← need hdr.filter "FILTER"
    Except.ok { data := d, dark := none, subcount := subcount, camera := camera,
                exp := exp, gain := gain, temp := temp, role := some Role.LIGHT,
                target := some target, filter := some filt }
  else if strContainsSub (lowerStr imageType) "dark" then
    Except.ok { data := d, dark := none, subcount := subcount, camera := camera,
                exp := exp, gain := gain, temp := temp, role := some Role.DARK,
                target := none, filter := none }
  else if strContainsSub (lowerStr imageType) "flat" then do
    let filt ← need hdr.filter "FILTER"
    Except.ok { data := d, dark := none, subcount := subcount, camera := camera,
                exp := exp, gain := gain, temp := temp, role := some Role.FLAT,
                filter := some filt, target := none }
  else
    Except.ok { data := d, dark := none, subcount := subcount, camera := camera,
                exp := exp, gain := gain, temp := temp, role := none,
                target := none, filter := none }

/-- The `key` property: the stack key string of the image.  Returns
`none` where the Python property raises `AttributeError` because
`image_type` was never set. -/
def Image.key (img : Image) : Option String :=
  match img.role with
  | some Role.LIGHT => some (img.camera ++ "_LIGHT_" ++ pyStr img.target ++ "_"
      ++ pyStr img.filter ++ "_" ++ toString img.exp ++ "_"
      ++ toString img.gain ++ "_" ++ toString img.temp)
  | some Role.DARK => some (img.camera ++ "_DARK_" ++ toString img.exp ++ "_"
      ++ toString img.gain ++ "_" ++ toString img.temp)
  | some Role.FLAT => some (img.camera ++ "_FLAT_" ++ pyStr img.filter ++ "_"
      ++ toString img.gain ++ "_" ++ toString img.temp)
  | none => none

/-- The `dark_key` property: the dark lookup key for LIGHT and FLAT
frames, `None` for DARK frames. -/
def Image.dark_key (img : Image) : Option String :=
  match img.role with
  | some Role.LIGHT => some (img.camera ++ "_DARK_" ++ toString img.exp ++ "_"
      ++ toString img.gain ++ "_" ++ toString img.temp)
  | some Role.FLAT => some (img.camera ++ "_DARK_" ++ toString img.exp ++ "_"
      ++ toString img.gain ++ "_" ++ toString img.temp)
  | _ => none

/-- The `flat_key` property: the flat lookup key for LIGHT frames only. -/
def Image.flat_key (img : Image) : Option String :=
  match img.role with
  | some Role.LIGHT => some (img.camera ++ "_FLAT_" ++ pyStr img.filter ++ "_"
      ++ toString img.gain ++ "_" ++ toString img.temp)
  | _ => none

/-- The `fits_header` property: the header written back when a stack is
persisted.  Total in the model; the pipeline only persists images whose
role is set, matching the source where an unset role would raise. -/
def Image.fits_header (img : Image) : Header :=
  { instrume := some img.camera
    exptime := some img.exp
    gain := some img.gain
    ccdtemp := some (img.temp : ℚ)
    imagetyp := img.role.map (fun r =>
      match r with
      | Role.LIGHT => "Light Frame"
      | Role.FLAT => "Flat Frame"
      | Role.DARK => "Dark Frame")
    object := if img.role = some Role.LIGHT then img.target else none
    filter := if img.role = some Role.LIGHT ∨ img.role = some Role.FLAT then
        img.filter else none
    subcount := some img.subcount
    history := img.dark.map (fun d => "dark " ++ d) }

/-- Association-list lookup in the stack store, newest entry first. -/
def lookupStore (store : List (String × Option (Header × Pixels)))
    (k : String) : Option (Option (Header × Pixels)) :=
  match store with
  | [] => none
  | (k2, v) :: rest => if k = k2 then some v else lookupStore rest k

/-- Overwriting insert, modelled by shadowing: the newest entry for a
key is the one `lookupStore` finds, matching `writeto(overwrite=True)`. -/
def insertStore (store : List (String × Option (Header × Pixels)))
    (k : String) (v : Option (Header × Pixels)) :
    List (String × Option (Header × Pixels)) :=
  (k, v) :: store

/-- The `DB` object: the processed ledger loaded in memory plus the
stack store (one file per stack key). -/
structure DB where
  processed : List String
  store : List (String × Option (Header × Pixels))
deriving DecidableEq, Repr

/-- `DB.is_already_processed`: ledger membership. -/
def DB.is_already_processed (db : DB) (path : String) : Bool :=
  db.processed.contains path

/-- `DB.mark_processed`: append the path to the in-memory list and to
the durable ledger file (the file is the list in the model). -/
def DB.mark_processed (db : DB) (path : String) : DB :=
  { db with processed := db.processed ++ [path] }

/-- File-existence check behind `DB.stack_exists`, keyed by stack key. -/
def DB.stack_existsK (db : DB) (k : String) : Bool :=
  (lookupStore db.store k).isSome

/-- `DB.stack_exists`: checks whether the stack file for the key of the
image exists.  Accessing the key of a role-less image raises. -/
def DB.stack_exists (db : DB) (img : Image) : Except PyErr Bool :=
  match Image.key img with
  | none => Except.error PyErr.attrError
  | some k => Except.ok (db.stack_existsK k)

/-- `DB.get_stacked_image`: open and decode the stack file for a key;
any failure (absent file, undecodable file, classification error while
re-reading the stored header) is swallowed and yields `None`. -/
def DB.get_stacked_image (db : DB) (k : String) : Option Image :=
  match lookupStore db.store k with
  | none => none
  | some none => none
  | some (some (h, d)) => (classify h d).toOption

/-- Minimum of a pixel list (`data.min()` of numpy); junk 0 on the
empty grid, where numpy errors. -/
def listMin (l : Pixels) : ℚ :=
  match l with
  | [] => 0
  | x :: xs => xs.foldl min x

/-- Maximum of a pixel list (`data.max()` of numpy). -/
def listMax (l : Pixels) : ℚ :=
  match l with
  | [] => 0
  | x :: xs => xs.foldl max x

/-- The 16-bit remap computed at the top of `save_fits` and
`save_stretched_png`: `np.uint16(np.interp(data, (min, max), (0, 65535)))`,
a linear remap of the value range onto [0, 65535] followed by the
truncating uint16 cast.  The degenerate constant grid, where numpy
interpolation over a non-increasing breakpoint pair is unspecified, is
not modelled beyond the junk value rational division by zero gives. -/
def remap16 (data : Pixels) : List ℤ :=
  let mn := listMin data
  let mx := listMax data
  data.map (fun x => ⌊(x - mn) * 65535 / (mx - mn)⌋)

/-- `Image.save_fits`: persist the image under its stack key.  The
remapped 16-bit grid is computed into a local and then discarded: the
HDU is built from `self.data`, so the stored pixel grid is the original
data, not `remap16` of it.  Returns the written path (the key-derived
file name in the model) and the updated store. -/
def Image.save_fits (img : Image) (db : DB) : Except PyErr (String × DB) :=
  match Image.key img with
  | none => Except.error PyErr.attrError
  | some k =>
    Except.ok (k ++ ".fits",
      { db with
        store := insertStore db.store k (some (Image.fits_header img, img.data)) })

/-- External collaborators of the pipeline: the skimage gaussian filter
and the astroalign registration routine (source pixels, reference
pixels to aligned pixels). -/
structure Collab where
  smooth : Pixels → Pixels
  register : Pixels → Pixels → Pixels

/-- Pipeline state: the database, the registered output queue handles,
the log of rendered preview artifact locations, and the messages put on
output queues as (queue id, artifact location) pairs. -/
structure SState where
  db : DB
  output_queues : List String
  previews : List String
  sent : List (String × String)
deriving DecidableEq, Repr

/-- `Image.save_stretched_png`: render the preview artifact for the
image.  Stretching, cropping and downscaling are display-only
collaborator calls; the observable is the artifact location, recorded
in the `previews` event list.  Raises on a role-less image, which has
no key. -/
def Image.save_stretched_png (img : Image) (s : SState) :
    Except PyErr (String × SState) :=
  match Image.key img with
  | none => Except.error PyErr.attrError
  | some k =>
    Except.ok (k ++ ".png", { s with previews := s.previews ++ [k ++ ".png"] })

/-- `Stacker._subtract_dark`: look up the dark stack at the dark lookup
key (rendered through `str`, so a `None` key becomes the literal string
None and finds nothing); on a miss return the frame unchanged, on a hit
subtract element-wise and record the dark key as provenance. -/
def Stacker.subtract_dark (db : DB) (img : Image) : Image :=
  match db.get_stacked_image (pyStr (Image.dark_key img)) with
  | none => img
  | some dark =>
    { img with data := List.zipWith (fun a b => a - b) img.data dark.data,
               dark := some (pyStr (Image.dark_key img)) }

/-- Mean of a pixel list (`data.mean()` of numpy); junk 0 on empty. -/
def meanQ (l : Pixels) : ℚ := l.sum / l.length

/-- `Stacker._divide_flat`: look up the flat stack at the flat lookup
key; on a miss return the frame data unchanged, on a hit divide by the
flat normalised to unit mean. -/
def Stacker.divide_flat (db : DB) (img : Image) : Pixels :=
  match db.get_stacked_image (pyStr (Image.flat_key img)) with
  | none => img.data
  | some flat =>
    List.zipWith (fun a b => a / (b / meanQ flat.data)) img.data flat.data

/-- `Stacker._align`: load the stack for the key of the image as the
reference and register the frame data against it.  When the reference
fails to load, the registration collaborator receives `None` and
raises. -/
def Stacker.align (c : Collab) (db : DB) (img : Image) :
    Except PyErr Pixels :=
  match Image.key img with
  | none => Except.error PyErr.attrError
  | some k =>
    match db.get_stacked_image k with
    | none => Except.error (PyErr.exc "register: reference is None")
    | some ref => Except.ok (c.register img.data ref.data)

/-- The combination law of `Stacker._stack`, line 303 of the source:
`(count * stackPixels + newPixels) / (count + 1)`, element-wise. -/
def mergeData (count : Nat) (stackData newData : Pixels) : Pixels :=
  List.zipWith (fun p n => ((count : ℚ) * p + n) / ((count : ℚ) + 1))
    stackData newData

/-- `Stacker._stack`: load the stack for the key of the image, raise
when it cannot be loaded, smooth the frame data unless the role is
LIGHT, combine under the running-average law, bump the sample count,
persist the updated stack, and return it. -/
def Stacker.stackOp (c : Collab) (img : Image) (s : SState) :
    Except PyErr (Image × SState) :=
  match Image.key img with
  | none => Except.error PyErr.attrError
  | some k =>
    match s.db.get_stacked_image k with
    | none => Except.error (PyErr.exc "expected a stack")
    | some stacked =>
      let newData := if img.role = some Role.LIGHT then img.data
        else c.smooth img.data
      let count := stacked.subcount
      let stacked2 := { stacked with
        data := mergeData count stacked.data newData,
        subcount := count + 1 }
      match stacked2.save_fits s.db with
      | Except.error e => Except.error e
      | Except.ok (_, db2) => Except.ok (stacked2, { s with db := db2 })

/-- `Stacker._process_item`: the per-item pipeline.  The input
filesystem `fs` maps a submitted path to the decoded FITS content, or
`none` when opening fails.  Returns the updated state and the exception
that escaped to the worker, if any. -/
def Stacker.process_item (c : Collab) (fs : String → Option (Header × Pixels))
    (s : SState) (path : String) : SState × Option PyErr :=
  if s.db.is_already_processed path then (s, none)
  else
    match fs path with
    | none => (s, some (PyErr.exc "fits open failed"))
    | some (hdr, d) =>
      match classify hdr d with
      | Except.error e => (s, some e)
      | Except.ok img =>
        let s1 : SState := { s with db := s.db.mark_processed path }
        match Image.key img with
        | none => (s1, some PyErr.attrError)
        | some k =>
          if ¬ s1.db.stack_existsK k then
            match img.save_fits s1.db with
            | Except.error e => (s1, some e)
            | Except.ok (_, db2) =>
              let s2 : SState := { s1 with db := db2 }
              match img.save_stretched_png s2 with
              | Except.error e => (s2, some e)
              | Except.ok (_, s3) => (s3, none)
          else
            match img.role with
            | some Role.LIGHT =>
              let img1 := Stacker.subtract_dark s1.db img
              let img2 := { img1 with data := Stacker.divide_flat s1.db img1 }
              match Stacker.align c s1.db img2 with
              | Except.error e => (s1, some e)
              | Except.ok reg =>
                let img3 := { img2 with data := reg }
                match Stacker.stackOp c img3 s1 with
                | Except.error e => (s1, some e)
                | Except.ok (stacked, s2) =>
                  match stacked.save_stretched_png s2 with
                  | Except.error e => (s2, some e)
                  | Except.ok (pngPath, s3) =>
                    ({ s3 with sent := s3.sent ++
                        s3.output_queues.map (fun q => (q, pngPath)) }, none)
            | some Role.DARK =>
              match Stacker.stackOp c img s1 with
              | Except.error e => (s1, some e)
              | Except.ok (_, s2) => (s2, none)
            | some Role.FLAT =>
              let img1 := Stacker.subtract_dark s1.db img
              match Stacker.stackOp c img1 s1 with
              | Except.error e => (s1, some e)
              | Except.ok (_, s2) => (s2, none)
            | none => (s1, none)

/-- The worker loop restricted to a finite queue of submitted paths:
each item is processed in order, any escaping exception is caught and
logged, and processing continues with the next item. -/
def Stacker.run_queue (c : Collab) (fs : String → Option (Header × Pixels)) :
    SState → List String → SState
  | s, [] => s
  | s, p :: ps => Stacker.run_queue c fs (Stacker.process_item c fs s p).1 ps

/-! ## Concrete fixtures used by witnesses and counterexamples -/

/-- Concrete collaborators: smoothing halves every pixel (distinguishes
smoothed from raw input) and registration returns the source pixels. -/
def cId : Collab :=
  { smooth := fun d => d.map (fun x => x / 2), register := fun d _ => d }

/-- Complete LIGHT header: camera cam, 10 s, gain 100, 18 C. -/
def hdrL : Header :=
  { instrume := some "cam", exptime := some 10, gain := some 100,
    ccdtemp := some 18, imagetyp := some "Light Frame",
    object := some "M31", filter := some "R" }

/-- LIGHT header missing the required OBJECT card. -/
def hdrBadL : Header :=
  { instrume := some "cam", exptime := some 10, gain := some 100,
    ccdtemp := some 18, imagetyp := some "Light Frame",
    filter := some "R" }

/-- Header whose type tag matches none of light, dark, flat. -/
def hdrBias : Header :=
  { instrume := some "cam", exptime := some 10, gain := some 100,
    ccdtemp := some 18, imagetyp := some "Bias Frame" }

/-- Complete DARK header. -/
def hdrD : Header :=
  { instrume := some "cam", exptime := some 10, gain := some 100,
    ccdtemp := some 18, imagetyp := some "Dark Frame" }

/-- DARK header carrying a prior sample count of 7. -/
def hdrD7 : Header :=
  { instrume := some "cam", exptime := some 10, gain := some 100,
    ccdtemp := some 18, imagetyp := some "Dark Frame", subcount := some 7 }

/-- FLAT header missing the required FILTER card. -/
def hdrBadF : Header :=
  { instrume := some "cam", exptime := some 10, gain := some 100,
    ccdtemp := some 18, imagetyp := some "Flat Frame" }

/-- The empty pipeline state. -/
def s0 : SState :=
  { db := { processed := [], store := [] }, output_queues := [],
    previews := [], sent := [] }


/-! ## General helper lemmas -/

/-- Bind on a successful `Except` computation. -/
@[simp] theorem except_bind_ok (a : α) (f : α → Except PyErr β) :
    (Except.ok a : Except PyErr α) >>= f = f a := rfl

/-- Bind on a failed `Except` computation. -/
@[simp] theorem except_bind_err (e : PyErr) (f : α → Except PyErr β) :
    (Except.error e : Except PyErr α) >>= f = Except.error e := rfl

/-- Ledger membership is list membership. -/
theorem already_mem (db : DB) (p : String) :
    db.is_already_processed p = true ↔ p ∈ db.processed := by
  simp [DB.is_already_processed]

/-- Marking a path leaves the stack store untouched. -/
@[simp] theorem mark_store (db : DB) (p : String) :
    (db.mark_processed p).store = db.store := rfl

/-- Marking a path appends it to the ledger. -/
@[simp] theorem mark_processed_list (db : DB) (p : String) :
    (db.mark_processed p).processed = db.processed ++ [p] := rfl

/-- Looking up the freshly inserted key finds the inserted value. -/
@[simp] theorem lookup_insert (store : List (String × Option (Header × Pixels)))
    (k : String) (v : Option (Header × Pixels)) :
    lookupStore (insertStore store k v) k = some v := by
  simp [lookupStore, insertStore]

/-- A successful `stackOp` changes only the store: ledger, queues,
previews and sent messages are those of the input state. -/
theorem stackOp_ok_frame (c : Collab) (img m : Image) (s s2 : SState)
    (h : Stacker.stackOp c img s = Except.ok (m, s2)) :
    s2.db.processed = s.db.processed ∧ s2.output_queues = s.output_queues ∧
      s2.previews = s.previews ∧ s2.sent = s.sent := by
  unfold Stacker.stackOp at h
  split at h
  · exact absurd h (by simp)
  · split at h
    · exact absurd h (by simp)
    · dsimp only at h
      split at h
      · exact absurd h (by simp)
      · rename_i heq
        unfold Image.save_fits at heq
        split at heq
        · exact absurd heq (by simp)
        · simp only [Except.ok.injEq] at heq h
          obtain ⟨hk2, hdb⟩ := Prod.mk.injEq .. |>.mp heq
          obtain ⟨hm, hs⟩ := Prod.mk.injEq .. |>.mp h
          subst hs
          rw [← hdb]
          simp

/-- A successful preview render changes only the previews log. -/
theorem save_png_ok_frame (img : Image) (s : SState) (pngp : String)
    (s2 : SState) (h : Image.save_stretched_png img s = Except.ok (pngp, s2)) :
    s2.db = s.db ∧ s2.output_queues = s.output_queues ∧ s2.sent = s.sent := by
  unfold Image.save_stretched_png at h
  split at h
  · exact absurd h (by simp)
  · simp only [Except.ok.injEq] at h
    obtain ⟨h1, h2⟩ := Prod.mk.injEq .. |>.mp h
    subst h2
    simp

/-- A path already in the ledger is skipped: the state is unchanged and
no error escapes. -/
theorem process_skip (c : Collab) (fs : String → Option (Header × Pixels))
    (s : SState) (p : String) (h : s.db.is_already_processed p = true) :
    Stacker.process_item c fs s p = (s, none) := by
  simp [Stacker.process_item, h]

/-- A successful `save_fits` changes only the store of the database. -/
theorem save_fits_ok_frame (img : Image) (db : DB) (pathr : String)
    (db2 : DB) (h : Image.save_fits img db = Except.ok (pathr, db2)) :
    db2.processed = db.processed := by
  unfold Image.save_fits at h
  split at h
  · exact absurd h (by simp)
  · simp only [Except.ok.injEq] at h
    obtain ⟨-, h2⟩ := Prod.mk.injEq .. |>.mp h
    rw [← h2]

/-- A run of `process_item` that escapes no exception has recorded the
path in the ledger: it was either skipped as already present or marked
during the run. -/
theorem process_item_ok_marked (c : Collab)
    (fs : String → Option (Header × Pixels)) (s : SState) (p : String)
    (h : (Stacker.process_item c fs s p).2 = none) :
    p ∈ (Stacker.process_item c fs s p).1.db.processed := by
  rcases hP : Stacker.process_item c fs s p with ⟨s1, e⟩
  rw [hP] at h
  dsimp only at h
  subst h
  dsimp only
  unfold Stacker.process_item at hP
  split at hP
  · rename_i hb
    obtain ⟨h1, -⟩ := Prod.mk.injEq .. |>.mp hP
    rw [← h1]
    exact (already_mem s.db p).mp hb
  · split at hP
    · exact absurd (Prod.mk.injEq .. |>.mp hP).2 (by simp)
    · split at hP
      · exact absurd (Prod.mk.injEq .. |>.mp hP).2 (by simp)
      · split at hP
        · exact absurd (Prod.mk.injEq .. |>.mp hP).2 (by simp)
        · dsimp only at hP
          split at hP
          · split at hP
            · exact absurd (Prod.mk.injEq .. |>.mp hP).2 (by simp)
            · rename_i xf fstf db2v hsf
              split at hP
              · exact absurd (Prod.mk.injEq .. |>.mp hP).2 (by simp)
              · rename_i xp fstp s3v hpng
                obtain ⟨h1, -⟩ := Prod.mk.injEq .. |>.mp hP
                rw [← h1]
                obtain ⟨hdb, -, -⟩ := save_png_ok_frame _ _ _ _ hpng
                rw [hdb]
                dsimp only
                rw [save_fits_ok_frame _ _ _ _ hsf]
                simp
          · split at hP
            · split at hP
              · exact absurd (Prod.mk.injEq .. |>.mp hP).2 (by simp)
              · rename_i xa regv halign
                split at hP
                · exact absurd (Prod.mk.injEq .. |>.mp hP).2 (by simp)
                · rename_i xs stackedv s2v hst
                  split at hP
                  · exact absurd (Prod.mk.injEq .. |>.mp hP).2 (by simp)
                  · rename_i xp pngpv s3v hpng
                    obtain ⟨h1, -⟩ := Prod.mk.injEq .. |>.mp hP
                    rw [← h1]
                    obtain ⟨hd2, -, -⟩ := save_png_ok_frame _ _ _ _ hpng
                    obtain ⟨hd, -, -, -⟩ := stackOp_ok_frame _ _ _ _ _ hst
                    rw [hd2, hd]
                    simp
            · split at hP
              · exact absurd (Prod.mk.injEq .. |>.mp hP).2 (by simp)
              · rename_i xs fstv s2v hst
                obtain ⟨h1, -⟩ := Prod.mk.injEq .. |>.mp hP
                rw [← h1]
                obtain ⟨hd, -, -, -⟩ := stackOp_ok_frame _ _ _ _ _ hst
                rw [hd]
                simp
            · split at hP
              · exact absurd (Prod.mk.injEq .. |>.mp hP).2 (by simp)
              · rename_i xs fstv s2v hst
                obtain ⟨h1, -⟩ := Prod.mk.injEq .. |>.mp hP
                rw [← h1]
                obtain ⟨hd, -, -, -⟩ := stackOp_ok_frame _ _ _ _ _ hst
                rw [hd]
                simp
            · obtain ⟨h1, -⟩ := Prod.mk.injEq .. |>.mp hP
              rw [← h1]
              simp

/-! ## Evaluation lemmas for the concrete fixtures -/

/-- The light tag contains the substring light. -/
theorem tag_light_light : strContainsSub (lowerStr "Light Frame") "light" = true := by
  decide

/-- The dark tag does not contain the substring light. -/
theorem tag_dark_light : strContainsSub (lowerStr "Dark Frame") "light" = false := by
  decide

/-- The dark tag contains the substring dark. -/
theorem tag_dark_dark : strContainsSub (lowerStr "Dark Frame") "dark" = true := by
  decide

/-- The flat tag does not contain the substring light. -/
theorem tag_flat_light : strContainsSub (lowerStr "Flat Frame") "light" = false := by
  decide

/-- The flat tag does not contain the substring dark. -/
theorem tag_flat_dark : strContainsSub (lowerStr "Flat Frame") "dark" = false := by
  decide

/-- The flat tag contains the substring flat. -/
theorem tag_flat_flat : strContainsSub (lowerStr "Flat Frame") "flat" = true := by
  decide

/-- The bias tag contains none of the three role substrings. -/
theorem tag_bias : strContainsSub (lowerStr "Bias Frame") "light" = false ∧
    strContainsSub (lowerStr "Bias Frame") "dark" = false ∧
    strContainsSub (lowerStr "Bias Frame") "flat" = false := by
  refine ⟨by decide, by decide, by decide⟩

/-- Round half to even fixes the integer 1000. -/
theorem rhe_1000 : roundHalfEven 1000 = 1000 := by
  unfold roundHalfEven
  norm_num

/-- The value 18 / 5 = 3.6 rounds up to 4. -/
theorem rhe_18_5 : roundHalfEven ((18:ℚ)/5) = 4 := by
  unfold roundHalfEven
  norm_num

/-- The value 20 / 5 = 4 rounds to itself. -/
theorem rhe_20_5 : roundHalfEven ((20:ℚ)/5) = 4 := by
  unfold roundHalfEven
  norm_num

/-- Two-decimal rounding fixes the integer 10. -/
theorem round2_ten : round2 10 = 10 := by
  unfold round2
  norm_num [rhe_1000]

/-- Complete FLAT header matching the other fixtures. -/
def hdrF : Header :=
  { instrume := some "cam", exptime := some 10, gain := some 100,
    ccdtemp := some 18, imagetyp := some "Flat Frame", filter := some "R" }

/-- The image record decoded from `hdrL`. -/
def imgL (d : Pixels) : Image :=
  { data := d, dark := none, subcount := 1, camera := "cam",
    exp := 10, gain := 100, temp := 20, role := some Role.LIGHT,
    target := some "M31", filter := some "R" }

/-- The image record decoded from `hdrD`. -/
def imgD (d : Pixels) : Image :=
  { data := d, dark := none, subcount := 1, camera := "cam",
    exp := 10, gain := 100, temp := 20, role := some Role.DARK,
    target := none, filter := none }

/-- The image record decoded from `hdrD7`: prior sample count 7. -/
def imgD7 (d : Pixels) : Image :=
  { data := d, dark := none, subcount := 7, camera := "cam",
    exp := 10, gain := 100, temp := 20, role := some Role.DARK,
    target := none, filter := none }

/-- The image record decoded from `hdrF`. -/
def imgF (d : Pixels) : Image :=
  { data := d, dark := none, subcount := 1, camera := "cam",
    exp := 10, gain := 100, temp := 20, role := some Role.FLAT,
    target := none, filter := some "R" }

/-- Decoding the LIGHT fixture header. -/
theorem classify_hdrL (d : Pixels) : classify hdrL d = Except.ok (imgL d) := by
  norm_num [classify, need, hdrL, imgL, round2_ten, rhe_18_5, tag_light_light]

/-- Decoding the DARK fixture header. -/
theorem classify_hdrD (d : Pixels) : classify hdrD d = Except.ok (imgD d) := by
  norm_num [classify, need, hdrD, imgD, round2_ten, rhe_18_5, tag_dark_light,
    tag_dark_dark]

/-- Decoding the DARK fixture header with prior sample count 7. -/
theorem classify_hdrD7 (d : Pixels) : classify hdrD7 d = Except.ok (imgD7 d) := by
  norm_num [classify, need, hdrD7, imgD7, round2_ten, rhe_18_5, tag_dark_light,
    tag_dark_dark]

/-- Decoding the FLAT fixture header. -/
theorem classify_hdrF (d : Pixels) : classify hdrF d = Except.ok (imgF d) := by
  norm_num [classify, need, hdrF, imgF, round2_ten, rhe_18_5, tag_flat_light,
    tag_flat_dark, tag_flat_flat]

/-- Stack key of the LIGHT fixture. -/
theorem key_imgL (d : Pixels) :
    Image.key (imgL d) = some "cam_LIGHT_M31_R_10_100_20" := by rfl

/-- Stack key of the DARK fixture. -/
theorem key_imgD (d : Pixels) :
    Image.key (imgD d) = some "cam_DARK_10_100_20" := by rfl

/-- Stack key of the DARK fixture with sample count 7. -/
theorem key_imgD7 (d : Pixels) :
    Image.key (imgD7 d) = some "cam_DARK_10_100_20" := by rfl

/-- Stack key of the FLAT fixture. -/
theorem key_imgF (d : Pixels) :
    Image.key (imgF d) = some "cam_FLAT_R_100_20" := by rfl

/-- Dark lookup key of the LIGHT fixture. -/
theorem dark_key_imgL (d : Pixels) :
    Image.dark_key (imgL d) = some "cam_DARK_10_100_20" := by rfl

/-- Flat lookup key of the LIGHT fixture. -/
theorem flat_key_imgL (d : Pixels) :
    Image.flat_key (imgL d) = some "cam_FLAT_R_100_20" := by rfl

/-- Dark lookup key of the FLAT fixture. -/
theorem dark_key_imgF (d : Pixels) :
    Image.dark_key (imgF d) = some "cam_DARK_10_100_20" := by rfl

/-! ## C3 -/

/-- Claim C3 (idempotent ingestion): once a run of `process_item` for a
path completes without an escaping exception, the path is a member of
the ledger, and a second submission of the same path leaves the whole
pipeline state unchanged — in particular no stack is touched — because
the run returns at the ledger check before any processing. -/
theorem c3_second_submission_skipped (c : Collab)
    (fs : String → Option (Header × Pixels)) (s : SState) (p : String)
    (h : (Stacker.process_item c fs s p).2 = none) :
    Stacker.process_item c fs (Stacker.process_item c fs s p).1 p =
      ((Stacker.process_item c fs s p).1, none) ∧
    p ∈ (Stacker.process_item c fs s p).1.db.processed := by
  have hm := process_item_ok_marked c fs s p h
  exact ⟨process_skip _ _ _ _ ((already_mem _ _).mpr hm), hm⟩

/-- Filesystem serving one well-formed DARK frame. -/
def fsD : String → Option (Header × Pixels) :=
  fun p => if p = "d1.fits" then some (hdrD, [2, 4]) else none

/-- First run of the DARK frame seeds its stack and escapes no
exception. -/
theorem fsD_first_run_ok : (Stacker.process_item cId fsD s0 "d1.fits").2 = none := by
  simp [Stacker.process_item, fsD, s0, classify_hdrD, key_imgD, DB.stack_existsK,
    DB.is_already_processed, lookupStore, DB.mark_processed, Image.save_fits,
    Image.save_stretched_png, key_imgD]

/-- Witness for C3: the concrete DARK ingestion completes, and
resubmitting the same path is a no-op skip. -/
theorem c3_witness :
    Stacker.process_item cId fsD (Stacker.process_item cId fsD s0 "d1.fits").1
        "d1.fits" =
      ((Stacker.process_item cId fsD s0 "d1.fits").1, none) ∧
    "d1.fits" ∈ (Stacker.process_item cId fsD s0 "d1.fits").1.db.processed :=
  c3_second_submission_skipped cId fsD s0 "d1.fits" fsD_first_run_ok

/-! ## C5 -/

/-- The DARK image whose save exposes the discarded remap. -/
def imgC5 : Image :=
  { data := [0, 2], camera := "cam", exp := 10, gain := 100, temp := 20,
    role := some Role.DARK }

/-- Claim C5 (code bug): `save_fits` is documented to write a 16-bit
representation with the value range linearly remapped into [0, 65535],
and it computes exactly that remap, but the HDU it writes is built from
the original `self.data`, so the stored pixel grid is the unremapped
input: on data [0, 2] the remap gives [0, 65535] yet [0, 2] is what is
persisted. -/
theorem c5_save_fits_discards_remap :
    Image.save_fits imgC5 { processed := [], store := [] } =
      Except.ok ("cam_DARK_10_100_20.fits",
        { processed := [],
          store := [("cam_DARK_10_100_20",
            some (Image.fits_header imgC5, [0, 2]))] }) ∧
    remap16 imgC5.data = [0, 65535] ∧
    imgC5.data ≠ (remap16 imgC5.data).map (fun z => (z : ℚ)) := by
  refine ⟨rfl, ?_, ?_⟩
  · norm_num [remap16, imgC5, listMin, listMax, min_def, max_def]
  · norm_num [remap16, imgC5, listMin, listMax, min_def, max_def]

/-! ## C1 -/

/-- Filesystem serving one malformed LIGHT frame (OBJECT card absent). -/
def fsC1 : String → Option (Header × Pixels) :=
  fun p => if p = "bad.fits" then some (hdrBadL, [1]) else none

/-- Claim C1 (code bug): the source comment says the path is always
marked processed so a failing file does not keep erroring, but
`Image(fit[0])` runs before `mark_processed`, so a frame whose
classification fails with a missing required card is never marked: the
ledger stays empty and a second submission of the same path repeats the
same classification error instead of being skipped. -/
theorem c1_classification_failure_not_marked :
    Stacker.process_item cId fsC1 s0 "bad.fits" =
      (s0, some (PyErr.keyError "OBJECT")) ∧
    Stacker.process_item cId fsC1
        (Stacker.process_item cId fsC1 s0 "bad.fits").1 "bad.fits" =
      (s0, some (PyErr.keyError "OBJECT")) ∧
    (Stacker.process_item cId fsC1 s0 "bad.fits").1.db.processed = [] := by
  refine ⟨rfl, rfl, rfl⟩

/-! ## C6 -/

/-- Counterexample to claim C6: a header whose type tag (Bias Frame)
contains none of light, dark, flat is classified without any failure;
the constructor returns a record with no role set instead of raising
MalformedMetadata. -/
theorem c6_counterexample_unknown_tag_succeeds :
    classify hdrBias [1] =
      Except.ok { data := [1], dark := none, subcount := 1, camera := "cam",
                  exp := 10, gain := 100, temp := 20, role := none,
                  target := none, filter := none } := by
  norm_num [classify, need, hdrBias, round2_ten, rhe_18_5, tag_bias.1,
    tag_bias.2.1, tag_bias.2.2]

/-- LIGHT header with OBJECT present but FILTER absent. -/
def hdrBadL2 : Header :=
  { instrume := some "cam", exptime := some 10, gain := some 100,
    ccdtemp := some 18, imagetyp := some "Light Frame",
    object := some "M31" }

/-- Claim C6 as amended: with the common cards present, classification
fails with the KeyError of the missing role-required card — OBJECT then
FILTER for a light-tagged frame, FILTER for a flat-tagged frame — but
for a type tag containing none of light, dark, flat it does not fail:
it succeeds and the returned record carries no role. -/
theorem c6_amended_required_fields :
    (∀ (h : Header) (d : Pixels) cam e g t ty,
      h.instrume = some cam → h.exptime = some e → h.gain = some g →
      h.ccdtemp = some t → h.imagetyp = some ty →
      strContainsSub (lowerStr ty) "light" = true → h.object = none →
      classify h d = Except.error (PyErr.keyError "OBJECT")) ∧
    (∀ (h : Header) (d : Pixels) cam e g t ty tgt,
      h.instrume = some cam → h.exptime = some e → h.gain = some g →
      h.ccdtemp = some t → h.imagetyp = some ty →
      strContainsSub (lowerStr ty) "light" = true → h.object = some tgt →
      h.filter = none →
      classify h d = Except.error (PyErr.keyError "FILTER")) ∧
    (∀ (h : Header) (d : Pixels) cam e g t ty,
      h.instrume = some cam → h.exptime = some e → h.gain = some g →
      h.ccdtemp = some t → h.imagetyp = some ty →
      strContainsSub (lowerStr ty) "light" = false →
      strContainsSub (lowerStr ty) "dark" = false →
      strContainsSub (lowerStr ty) "flat" = true → h.filter = none →
      classify h d = Except.error (PyErr.keyError "FILTER")) ∧
    (∀ (h : Header) (d : Pixels) cam e g t ty,
      h.instrume = some cam → h.exptime = some e → h.gain = some g →
      h.ccdtemp = some t → h.imagetyp = some ty →
      strContainsSub (lowerStr ty) "light" = false →
      strContainsSub (lowerStr ty) "dark" = false →
      strContainsSub (lowerStr ty) "flat" = false →
      (classify h d).map Image.role = Except.ok none) := by
  refine ⟨?_, ?_, ?_, ?_⟩
  · intro h d cam e g t ty h1 h2 h3 h4 h5 hl ho
    simp [classify, need, h1, h2, h3, h4, h5, hl, ho]
  · intro h d cam e g t ty tgt h1 h2 h3 h4 h5 hl ho hf
    simp [classify, need, h1, h2, h3, h4, h5, hl, ho, hf]
  · intro h d cam e g t ty h1 h2 h3 h4 h5 hl hd2 hfl hf
    simp [classify, need, h1, h2, h3, h4, h5, hl, hd2, hfl, hf]
  · intro h d cam e g t ty h1 h2 h3 h4 h5 hl hd2 hfl
    simp [classify, need, h1, h2, h3, h4, h5, hl, hd2, hfl, Except.map]

/-- Witness for the amended C6, at the concrete fixture headers. -/
theorem c6_amended_witness :
    classify hdrBadL [1] = Except.error (PyErr.keyError "OBJECT") ∧
    classify hdrBadL2 [1] = Except.error (PyErr.keyError "FILTER") ∧
    classify hdrBadF [1] = Except.error (PyErr.keyError "FILTER") ∧
    (classify hdrBias [1]).map Image.role = Except.ok none := by
  refine ⟨?_, ?_, ?_, ?_⟩
  · exact c6_amended_required_fields.1 hdrBadL [1] "cam" 10 100 18 "Light Frame"
      rfl rfl rfl rfl rfl tag_light_light rfl
  · exact c6_amended_required_fields.2.1 hdrBadL2 [1] "cam" 10 100 18
      "Light Frame" "M31" rfl rfl rfl rfl rfl tag_light_light rfl rfl
  · exact c6_amended_required_fields.2.2.1 hdrBadF [1] "cam" 10 100 18
      "Flat Frame" rfl rfl rfl rfl rfl tag_flat_light tag_flat_dark
      tag_flat_flat rfl
  · exact c6_amended_required_fields.2.2.2 hdrBias [1] "cam" 10 100 18
      "Bias Frame" rfl rfl rfl rfl rfl tag_bias.1 tag_bias.2.1 tag_bias.2.2

/-! ## C10 -/

/-- Claim C10: `get_stacked_image` yields `None` on every failure —
absent file, unreadable file, or a stored header that fails to decode —
rather than propagating an error.  Consequently a stack file that
exists but cannot be decoded behaves for dark subtraction and flat
division exactly like an absent calibration stack (the frame passes
through uncorrected), while the merge step raises its expected-a-stack
error even though the existence check for the same key succeeds. -/
theorem c10_corrupt_stack_file :
    (∀ (db : DB) (k : String), lookupStore db.store k = none →
      db.get_stacked_image k = none) ∧
    (∀ (db : DB) (k : String), lookupStore db.store k = some none →
      db.get_stacked_image k = none) ∧
    (∀ (db : DB) (k : String) (stf : Header × Pixels) (e : PyErr),
      lookupStore db.store k = some (some stf) →
      classify stf.1 stf.2 = Except.error e →
      db.get_stacked_image k = none) ∧
    (∀ (db : DB) (img : Image) (dk : String), Image.dark_key img = some dk →
      lookupStore db.store dk = some none →
      Stacker.subtract_dark db img = img) ∧
    (∀ (db : DB) (img : Image) (fk : String), Image.flat_key img = some fk →
      lookupStore db.store fk = some none →
      Stacker.divide_flat db img = img.data) ∧
    (∀ (c : Collab) (img : Image) (s : SState) (k : String),
      Image.key img = some k → lookupStore s.db.store k = some none →
      s.db.stack_existsK k = true ∧
      Stacker.stackOp c img s = Except.error (PyErr.exc "expected a stack")) := by
  refine ⟨?_, ?_, ?_, ?_, ?_, ?_⟩
  · intro db k h
    simp [DB.get_stacked_image, h]
  · intro db k h
    simp [DB.get_stacked_image, h]
  · intro db k stf e h hc
    simp [DB.get_stacked_image, h, hc, Except.toOption]
  · intro db img dk hdk h
    simp [Stacker.subtract_dark, hdk, pyStr, DB.get_stacked_image, h]
  · intro db img fk hfk h
    simp [Stacker.divide_flat, hfk, pyStr, DB.get_stacked_image, h]
  · intro c img s k hk h
    constructor
    · simp [DB.stack_existsK, h]
    · simp [Stacker.stackOp, hk, DB.get_stacked_image, h]

/-- Database fixture with two unreadable stack files and one stack file
whose stored header fails to decode. -/
def db10 : DB :=
  { processed := [],
    store := [("cam_DARK_10_100_20", none), ("cam_FLAT_R_100_20", none),
              ("undecodable", some (hdrBadL, [1]))] }

/-- Pipeline state over `db10`. -/
def s10 : SState :=
  { db := db10, output_queues := [], previews := [], sent := [] }

/-- Witness for C10 at concrete corrupt stores. -/
theorem c10_witness :
    db10.get_stacked_image "absent" = none ∧
    db10.get_stacked_image "cam_DARK_10_100_20" = none ∧
    db10.get_stacked_image "undecodable" = none ∧
    Stacker.subtract_dark db10 (imgL [5]) = imgL [5] ∧
    Stacker.divide_flat db10 (imgL [5]) = (imgL [5]).data ∧
    (db10.stack_existsK "cam_DARK_10_100_20" = true ∧
      Stacker.stackOp cId (imgD [5]) s10 =
        Except.error (PyErr.exc "expected a stack")) := by
  refine ⟨?_, ?_, ?_, ?_, ?_, ?_⟩
  · exact c10_corrupt_stack_file.1 db10 "absent" rfl
  · exact c10_corrupt_stack_file.2.1 db10 "cam_DARK_10_100_20" rfl
  · exact c10_corrupt_stack_file.2.2.1 db10 "undecodable" (hdrBadL, [1])
      (PyErr.keyError "OBJECT") rfl rfl
  · exact c10_corrupt_stack_file.2.2.2.1 db10 (imgL [5]) "cam_DARK_10_100_20"
      (dark_key_imgL [5]) rfl
  · exact c10_corrupt_stack_file.2.2.2.2.1 db10 (imgL [5]) "cam_FLAT_R_100_20"
      (flat_key_imgL [5]) rfl
  · exact c10_corrupt_stack_file.2.2.2.2.2 cId (imgD [5]) s10
      "cam_DARK_10_100_20" (key_imgD [5]) rfl

/-! ## C9 -/

/-- Pointwise combination of two constant grids of equal shape. -/
theorem zipWith_replicate_same (f : ℚ → ℚ → ℚ) (a b : ℚ) :
    ∀ len, List.zipWith f (List.replicate len a) (List.replicate len b) =
      List.replicate len (f a b)
  | 0 => rfl
  | n + 1 => by
    simp only [List.replicate_succ, List.zipWith_cons_cons]
    rw [zipWith_replicate_same f a b n]

/-- The combination law fixes a constant grid merged with itself. -/
theorem mergeData_const (count len : ℕ) (V : ℚ) :
    mergeData count (List.replicate len V) (List.replicate len V) =
      List.replicate len V := by
  unfold mergeData
  rw [zipWith_replicate_same]
  have h : ((count : ℚ) + 1) ≠ 0 := by positivity
  congr 1
  field_simp
  ring

/-- Seed a stack from a constant frame of value `V` over `len` pixels
(sample count 1), then fold the combination law of `Stacker._stack`
over further constant LIGHT frames of the same value: `merge_n len V m`
is the stack after `m` merges. -/
def merge_n (len : ℕ) (V : ℚ) : ℕ → Pixels × ℕ
  | 0 => (List.replicate len V, 1)
  | m + 1 =>
    (mergeData (merge_n len V m).2 (merge_n len V m).1 (List.replicate len V),
     (merge_n len V m).2 + 1)

/-- After `m` merges the stack is still constant `V` with count `m+1`. -/
theorem merge_n_const (len : ℕ) (V : ℚ) :
    ∀ m, merge_n len V m = (List.replicate len V, m + 1)
  | 0 => rfl
  | m + 1 => by
    simp only [merge_n, merge_n_const len V m, mergeData_const]

/-- Claim C9: for every N at least 1, seeding from a constant frame of
value V and merging N − 1 further constant-V LIGHT frames under the
combination law yields a stack of constant value V (exactly, in exact
arithmetic) with sample count N. -/
theorem c9_constant_running_average (N len : ℕ) (V : ℚ) (h : 1 ≤ N) :
    merge_n len V (N - 1) = (List.replicate len V, N) := by
  obtain ⟨m, rfl⟩ := Nat.exists_eq_add_of_le h
  rw [show 1 + m - 1 = m from by omega, merge_n_const,
    show m + 1 = 1 + m from by omega]

/-- Witness for C9 at N = 3, two pixels of value 5. -/
theorem c9_witness :
    1 ≤ 3 ∧ merge_n 2 5 (3 - 1) = (List.replicate 2 5, 3) :=
  ⟨by norm_num, c9_constant_running_average 3 2 5 (by norm_num)⟩

/-! ## C2 -/

/-- Loading a stored stack file that decodes successfully. -/
theorem get_stacked_image_of (db : DB) (k : String) (stf : Header × Pixels)
    (st : Image) (h : lookupStore db.store k = some (some stf))
    (hc : classify stf.1 stf.2 = Except.ok st) :
    db.get_stacked_image k = some st := by
  simp [DB.get_stacked_image, h, hc, Except.toOption]

/-- The stack key ignores the pixel data and the sample count. -/
theorem key_set_data_subcount (st : Image) (x : Pixels) (n : Nat) :
    Image.key { st with data := x, subcount := n } = Image.key st := rfl

/-- Pointwise reading of the combination law. -/
theorem mergeData_getElem (count : ℕ) : ∀ (p n : Pixels) (i : ℕ),
    (mergeData count p n)[i]? =
      Option.map₂ (fun a b => ((count : ℚ) * a + b) / ((count : ℚ) + 1))
        p[i]? n[i]?
  | [], _, _ => by simp [mergeData]
  | _ :: _, [], _ => by simp [mergeData]
  | a :: p, b :: n, 0 => by simp [mergeData]
  | a :: p, b :: n, i + 1 => by
    simp only [mergeData, List.zipWith_cons_cons, List.getElem?_cons_succ]
    exact mergeData_getElem count p n i

/-- Claim C2: a merge into the stack decoded from the store produces
pixels equal to `(count * stackPixels + newPixels) / (count + 1)` with
`newPixels` the raw frame data for LIGHT frames and the smoothed frame
data otherwise, increments the sample count by one, and persists the
updated stack in the store before returning. -/
theorem c2_merge_combination_law (c : Collab) (img m : Image) (s s2 : SState)
    (k k2 : String) (stf : Header × Pixels) (st : Image)
    (h1 : Image.key img = some k)
    (h2 : lookupStore s.db.store k = some (some stf))
    (h3 : classify stf.1 stf.2 = Except.ok st)
    (h4 : Image.key st = some k2)
    (h5 : Stacker.stackOp c img s = Except.ok (m, s2)) :
    m.data = mergeData st.subcount st.data
      (if img.role = some Role.LIGHT then img.data else c.smooth img.data) ∧
    m.subcount = st.subcount + 1 ∧
    lookupStore s2.db.store k2 = some (some (Image.fits_header m, m.data)) ∧
    (∀ i : ℕ, m.data[i]? = Option.map₂
      (fun p q => ((st.subcount : ℚ) * p + q) / ((st.subcount : ℚ) + 1))
      st.data[i]?
      ((if img.role = some Role.LIGHT then img.data else c.smooth img.data))[i]?) := by
  unfold Stacker.stackOp at h5
  rw [h1] at h5
  dsimp only at h5
  rw [get_stacked_image_of s.db k stf st h2 h3] at h5
  dsimp only at h5
  unfold Image.save_fits at h5
  rw [key_set_data_subcount, h4] at h5
  simp only [Except.ok.injEq, Prod.mk.injEq] at h5
  obtain ⟨hm, hs⟩ := h5
  subst hm
  subst hs
  refine ⟨rfl, rfl, by simp, ?_⟩
  intro i
  exact mergeData_getElem st.subcount st.data _ i

/-- Rendered key fragments of the fixtures. -/
theorem toString_exp_ten : toString (10 : ℚ) = "10" := rfl

/-- Rendered gain fragment of the fixtures. -/
theorem toString_gain_100 : toString (100 : ℤ) = "100" := rfl

/-- Rendered temperature fragment of the fixtures. -/
theorem toString_temp_20 : toString (20 : ℤ) = "20" := rfl

/-- Round half to even fixes the integer 4. -/
theorem rhe_four : roundHalfEven 4 = 4 := by
  unfold roundHalfEven
  norm_num

/-- The header stored for the DARK stack fixture, count 1. -/
def hdrStoredD : Header :=
  { instrume := some "cam", exptime := some 10, gain := some 100,
    ccdtemp := some 20, imagetyp := some "Dark Frame", subcount := some 1 }

/-- The header stored for the DARK stack fixture after one merge. -/
def hdrStoredD2 : Header :=
  { instrume := some "cam", exptime := some 10, gain := some 100,
    ccdtemp := some 20, imagetyp := some "Dark Frame", subcount := some 2 }

/-- The header written when the DARK fixture stack is persisted. -/
theorem fits_header_imgD : Image.fits_header (imgD [3, 5]) = hdrStoredD := by
  norm_num [Image.fits_header, imgD, hdrStoredD]

/-- Decoding the stored DARK stack fixture. -/
theorem classify_hdrStoredD :
    classify hdrStoredD [3, 5] = Except.ok (imgD [3, 5]) := by
  norm_num [classify, need, hdrStoredD, imgD, round2_ten, rhe_four,
    tag_dark_light, tag_dark_dark]

/-- Pipeline state holding one decodable DARK stack of data [3, 5]. -/
def sW : SState :=
  { db := { processed := ["d1.fits"],
            store := [("cam_DARK_10_100_20", some (hdrStoredD, [3, 5]))] },
    output_queues := [], previews := [], sent := [] }

/-- The merged DARK stack of the C2 witness: smoothing halves [2, 4] to
[1, 2], and (1 times [3, 5] plus [1, 2]) / 2 = [2, 7/2]. -/
def mW : Image :=
  { data := [2, 7/2], dark := none, subcount := 2, camera := "cam",
    exp := 10, gain := 100, temp := 20, role := some Role.DARK,
    target := none, filter := none }

/-- State after the witness merge: the updated stack shadows the old. -/
def s2W : SState :=
  { db := { processed := ["d1.fits"],
            store := [("cam_DARK_10_100_20", some (hdrStoredD2, [2, 7/2])),
              ("cam_DARK_10_100_20", some (hdrStoredD, [3, 5]))] },
    output_queues := [], previews := [], sent := [] }

/-- Assembled DARK key of the fixtures. -/
theorem appendD : "cam" ++ "_DARK_" ++ "10" ++ "_" ++ "100" ++ "_" ++ "20" =
    "cam_DARK_10_100_20" := rfl

/-- Assembled LIGHT key of the fixtures. -/
theorem appendL : "cam" ++ "_LIGHT_" ++ "M31" ++ "_" ++ "R" ++ "_" ++ "10"
    ++ "_" ++ "100" ++ "_" ++ "20" = "cam_LIGHT_M31_R_10_100_20" := rfl

/-- Assembled FLAT key of the fixtures. -/
theorem appendF : "cam" ++ "_FLAT_" ++ "R" ++ "_" ++ "100" ++ "_" ++ "20" =
    "cam_FLAT_R_100_20" := rfl

/-- The DARK role is not the LIGHT role. -/
theorem dark_ne_light : (Role.DARK = Role.LIGHT) = False := eq_false (by decide)

/-- The FLAT role is not the LIGHT role. -/
theorem flat_ne_light : (Role.FLAT = Role.LIGHT) = False := eq_false (by decide)

/-- Evaluating the witness merge. -/
theorem stackOp_witness_run :
    Stacker.stackOp cId (imgD [2, 4]) sW = Except.ok (mW, s2W) := by
  norm_num [Stacker.stackOp, sW, s2W, mW, cId, imgD, DB.get_stacked_image,
    lookupStore, insertStore, classify_hdrStoredD, Except.toOption, mergeData,
    Image.save_fits, Image.key, pyStr, Image.fits_header, hdrStoredD2,
    toString_exp_ten, toString_gain_100, toString_temp_20, appendD,
    dark_ne_light]

/-- Witness for C2 at the concrete DARK merge. -/
theorem c2_witness :
    Stacker.stackOp cId (imgD [2, 4]) sW = Except.ok (mW, s2W) ∧
    mW.data = mergeData (imgD [3, 5]).subcount (imgD [3, 5]).data
      (if (imgD [2, 4]).role = some Role.LIGHT then (imgD [2, 4]).data
        else cId.smooth (imgD [2, 4]).data) ∧
    mW.subcount = (imgD [3, 5]).subcount + 1 ∧
    lookupStore s2W.db.store "cam_DARK_10_100_20" =
      some (some (Image.fits_header mW, mW.data)) := by
  obtain ⟨ha, hb, hc, -⟩ := c2_merge_combination_law cId (imgD [2, 4]) mW sW
    s2W "cam_DARK_10_100_20" "cam_DARK_10_100_20" (hdrStoredD, [3, 5])
    (imgD [3, 5]) (key_imgD [2, 4]) rfl classify_hdrStoredD (key_imgD [3, 5])
    stackOp_witness_run
  exact ⟨stackOp_witness_run, ha, hb, hc⟩

/-! ## Equation lemmas for the per-item pipeline -/

/-- Loading a stack ignores the ledger. -/
@[simp] theorem get_stacked_image_mark (db : DB) (p k : String) :
    (db.mark_processed p).get_stacked_image k = db.get_stacked_image k := rfl

/-- Dark subtraction ignores the ledger. -/
@[simp] theorem subtract_dark_mark (db : DB) (p : String) (img : Image) :
    Stacker.subtract_dark (db.mark_processed p) img =
      Stacker.subtract_dark db img := rfl

/-- Flat division ignores the ledger. -/
@[simp] theorem divide_flat_mark (db : DB) (p : String) (img : Image) :
    Stacker.divide_flat (db.mark_processed p) img =
      Stacker.divide_flat db img := rfl

/-- The stack key ignores the pixel data. -/
@[simp] theorem key_set_data (img : Image) (x : Pixels) :
    Image.key { img with data := x } = Image.key img := rfl

/-- The role of an image survives a data update. -/
@[simp] theorem role_set_data (img : Image) (x : Pixels) :
    ({ img with data := x } : Image).role = img.role := rfl

/-- Dark subtraction does not change the stack key of the frame. -/
@[simp] theorem subtract_dark_key (db : DB) (img : Image) :
    Image.key (Stacker.subtract_dark db img) = Image.key img := by
  unfold Stacker.subtract_dark
  split
  · rfl
  · rfl

/-- Dark subtraction does not change the role of the frame. -/
@[simp] theorem subtract_dark_role (db : DB) (img : Image) :
    (Stacker.subtract_dark db img).role = img.role := by
  unfold Stacker.subtract_dark
  split
  · rfl
  · rfl

/-- Seeding equation: a frame whose stack key has no stack file is
persisted as-is under its key and a preview is rendered for it,
whatever its role and whatever the collaborators. -/
theorem process_item_seed (c : Collab) (fs : String → Option (Header × Pixels))
    (s : SState) (p : String) (hdr : Header) (d : Pixels) (img : Image)
    (k : String)
    (h0 : s.db.is_already_processed p = false)
    (h1 : fs p = some (hdr, d))
    (h2 : classify hdr d = Except.ok img)
    (h3 : Image.key img = some k)
    (h4 : lookupStore s.db.store k = none) :
    Stacker.process_item c fs s p =
      ({ db := { processed := s.db.processed ++ [p],
                 store := insertStore s.db.store k
                   (some (Image.fits_header img, img.data)) },
         output_queues := s.output_queues,
         previews := s.previews ++ [k ++ ".png"],
         sent := s.sent }, none) := by
  simp [Stacker.process_item, h0, h1, h2, h3, DB.stack_existsK, h4,
    Image.save_fits, Image.save_stretched_png, DB.mark_processed]

/-- Dark subtraction preserves the camera field. -/
theorem subtract_dark_camera (db : DB) (img : Image) :
    (Stacker.subtract_dark db img).camera = img.camera := by
  unfold Stacker.subtract_dark
  split <;> rfl

/-- Dark subtraction preserves the exposure field. -/
theorem subtract_dark_exp (db : DB) (img : Image) :
    (Stacker.subtract_dark db img).exp = img.exp := by
  unfold Stacker.subtract_dark
  split <;> rfl

/-- Dark subtraction preserves the gain field. -/
theorem subtract_dark_gain (db : DB) (img : Image) :
    (Stacker.subtract_dark db img).gain = img.gain := by
  unfold Stacker.subtract_dark
  split <;> rfl

/-- Dark subtraction preserves the temperature field. -/
theorem subtract_dark_temp (db : DB) (img : Image) :
    (Stacker.subtract_dark db img).temp = img.temp := by
  unfold Stacker.subtract_dark
  split <;> rfl

/-- Dark subtraction preserves the target field. -/
theorem subtract_dark_target (db : DB) (img : Image) :
    (Stacker.subtract_dark db img).target = img.target := by
  unfold Stacker.subtract_dark
  split <;> rfl

/-- Dark subtraction preserves the filter field. -/
theorem subtract_dark_filter (db : DB) (img : Image) :
    (Stacker.subtract_dark db img).filter = img.filter := by
  unfold Stacker.subtract_dark
  split <;> rfl

/-- The key of a record whose role field is literally LIGHT. -/
theorem key_light (dta : Pixels) (drk : Option String) (sbc : Nat)
    (cam : String) (ex : ℚ) (gn : Int) (tp : ℤ) (tgt flt : Option String) :
    Image.key ⟨dta, drk, sbc, cam, ex, gn, tp, some Role.LIGHT, tgt, flt⟩ =
      some (cam ++ "_LIGHT_" ++ pyStr tgt ++ "_" ++ pyStr flt ++ "_"
        ++ toString ex ++ "_" ++ toString gn ++ "_" ++ toString tp) := rfl

/-- LIGHT merge equation: against an existing, decodable stack, the
pipeline dark-subtracts, flat-divides the dark-subtracted frame,
aligns the result against the stack, merges under the combination law,
persists the merged stack, renders its preview and notifies every
registered queue. -/
theorem process_item_light_merge (c : Collab)
    (fs : String → Option (Header × Pixels)) (s : SState) (p : String)
    (hdr : Header) (d : Pixels) (img : Image) (k : String)
    (stf : Header × Pixels) (ref : Image) (k2 : String)
    (h0 : s.db.is_already_processed p = false)
    (h1 : fs p = some (hdr, d))
    (h2 : classify hdr d = Except.ok img)
    (h3 : img.role = some Role.LIGHT)
    (h4 : Image.key img = some k)
    (h5 : lookupStore s.db.store k = some (some stf))
    (h6 : classify stf.1 stf.2 = Except.ok ref)
    (h7 : Image.key ref = some k2) :
    Stacker.process_item c fs s p =
      (let i1 := Stacker.subtract_dark s.db img
       let i2 : Image := { i1 with data := Stacker.divide_flat s.db i1 }
       let i3 : Image := { i2 with data := c.register i2.data ref.data }
       let m : Image := { ref with
         data := mergeData ref.subcount ref.data i3.data,
         subcount := ref.subcount + 1 }
       ({ db := { processed := s.db.processed ++ [p],
                  store := insertStore s.db.store k2
                    (some (Image.fits_header m, m.data)) },
          output_queues := s.output_queues,
          previews := s.previews ++ [k2 ++ ".png"],
          sent := s.sent ++
            s.output_queues.map (fun q => (q, k2 ++ ".png")) }, none)) := by
  have hget : s.db.get_stacked_image k = some ref :=
    get_stacked_image_of s.db k stf ref h5 h6
  have hka : img.camera ++ "_LIGHT_" ++ pyStr img.target ++ "_"
      ++ pyStr img.filter ++ "_" ++ toString img.exp ++ "_"
      ++ toString img.gain ++ "_" ++ toString img.temp = k := by
    have h := h4
    simp only [Image.key, h3] at h
    exact Option.some.inj h
  simp [Stacker.process_item, h0, h1, h2, h3, h4, DB.stack_existsK, h5,
    Stacker.align, Stacker.stackOp, Image.save_fits,
    Image.save_stretched_png, key_light, subtract_dark_role,
    subtract_dark_camera, subtract_dark_exp, subtract_dark_gain,
    subtract_dark_temp, subtract_dark_target, subtract_dark_filter,
    hka, hget, key_set_data_subcount, h7]

/-- FLAT merge equation: against an existing, decodable stack, the
pipeline dark-subtracts the frame, smooths it, merges it under the
combination law and persists the merged stack; no preview is rendered
and nothing is delivered to the output queues. -/
theorem process_item_flat_merge (c : Collab)
    (fs : String → Option (Header × Pixels)) (s : SState) (p : String)
    (hdr : Header) (d : Pixels) (img : Image) (k : String)
    (stf : Header × Pixels) (ref : Image) (k2 : String)
    (h0 : s.db.is_already_processed p = false)
    (h1 : fs p = some (hdr, d))
    (h2 : classify hdr d = Except.ok img)
    (h3 : img.role = some Role.FLAT)
    (h4 : Image.key img = some k)
    (h5 : lookupStore s.db.store k = some (some stf))
    (h6 : classify stf.1 stf.2 = Except.ok ref)
    (h7 : Image.key ref = some k2) :
    Stacker.process_item c fs s p =
      (let i1 := Stacker.subtract_dark s.db img
       let m : Image := { ref with
         data := mergeData ref.subcount ref.data (c.smooth i1.data),
         subcount := ref.subcount + 1 }
       ({ db := { processed := s.db.processed ++ [p],
                  store := insertStore s.db.store k2
                    (some (Image.fits_header m, m.data)) },
          output_queues := s.output_queues,
          previews := s.previews,
          sent := s.sent }, none)) := by
  have hget : s.db.get_stacked_image k = some ref :=
    get_stacked_image_of s.db k stf ref h5 h6
  have hkey1 : Image.key (Stacker.subtract_dark s.db img) = some k := by
    rw [subtract_dark_key, h4]
  simp [Stacker.process_item, h0, h1, h2, h3, h4, DB.stack_existsK, h5,
    Stacker.stackOp, hkey1, subtract_dark_role, hget, Image.save_fits,
    key_set_data_subcount, h7, flat_ne_light]

/-! ## C4 -/

/-- Claim C4 as amended: a frame whose stack key has no existing stack
file is persisted exactly as decoded — uncalibrated, unaligned pixel
data — with its own sample count (1 when the source header carries no
prior SUBCOUNT, the header value otherwise), the result is identical
for any choice of smoothing and alignment collaborators, and the
written header carries that sample count. -/
theorem c4_amended_seeding (c c' : Collab)
    (fs : String → Option (Header × Pixels)) (s : SState) (p : String)
    (hdr : Header) (d : Pixels) (img : Image) (k : String)
    (h0 : s.db.is_already_processed p = false)
    (h1 : fs p = some (hdr, d))
    (h2 : classify hdr d = Except.ok img)
    (h3 : Image.key img = some k)
    (h4 : lookupStore s.db.store k = none) :
    Stacker.process_item c fs s p = Stacker.process_item c' fs s p ∧
    Stacker.process_item c fs s p =
      ({ db := { processed := s.db.processed ++ [p],
                 store := insertStore s.db.store k
                   (some (Image.fits_header img, img.data)) },
         output_queues := s.output_queues,
         previews := s.previews ++ [k ++ ".png"],
         sent := s.sent }, none) ∧
    (Image.fits_header img).subcount = some img.subcount := by
  refine ⟨?_, process_item_seed c fs s p hdr d img k h0 h1 h2 h3 h4, rfl⟩
  rw [process_item_seed c fs s p hdr d img k h0 h1 h2 h3 h4,
    process_item_seed c' fs s p hdr d img k h0 h1 h2 h3 h4]

/-- Filesystem serving one DARK frame carrying SUBCOUNT 7. -/
def fsD7 : String → Option (Header × Pixels) :=
  fun p => if p = "d7.fits" then some (hdrD7, [4]) else none

/-- Counterexample to claim C4 as stated: seeding from a frame whose
header carries SUBCOUNT 7 creates a stack whose persisted sample count
is 7, not 1. -/
theorem c4_counterexample_seed_count :
    lookupStore (Stacker.process_item cId fsD7 s0 "d7.fits").1.db.store
        "cam_DARK_10_100_20" =
      some (some (Image.fits_header (imgD7 [4]), [4])) ∧
    (Image.fits_header (imgD7 [4])).subcount = some 7 ∧ (7 : ℕ) ≠ 1 := by
  rw [process_item_seed cId fsD7 s0 "d7.fits" hdrD7 [4] (imgD7 [4])
    "cam_DARK_10_100_20" rfl rfl (classify_hdrD7 [4]) (key_imgD7 [4]) rfl]
  refine ⟨by simp [imgD7], rfl, by norm_num⟩

/-- A second collaborator bundle, distinct from `cId`. -/
def cAlt : Collab :=
  { smooth := fun d => d, register := fun _ r => r }

/-- Witness for the amended C4 at the concrete DARK seed. -/
theorem c4_witness :
    Stacker.process_item cId fsD s0 "d1.fits" =
      Stacker.process_item cAlt fsD s0 "d1.fits" ∧
    Stacker.process_item cId fsD s0 "d1.fits" =
      ({ db := { processed := s0.db.processed ++ ["d1.fits"],
                 store := insertStore s0.db.store "cam_DARK_10_100_20"
                   (some (Image.fits_header (imgD [2, 4]), (imgD [2, 4]).data)) },
         output_queues := s0.output_queues,
         previews := s0.previews ++ ["cam_DARK_10_100_20" ++ ".png"],
         sent := s0.sent }, none) ∧
    (Image.fits_header (imgD [2, 4])).subcount = some (imgD [2, 4]).subcount :=
  c4_amended_seeding cId cAlt fsD s0 "d1.fits" hdrD [2, 4] (imgD [2, 4])
    "cam_DARK_10_100_20" rfl rfl (classify_hdrD [2, 4]) (key_imgD [2, 4]) rfl

/-! ## C7 -/

/-- Filesystem serving one well-formed LIGHT frame for seeding. -/
def fsL : String → Option (Header × Pixels) :=
  fun p => if p = "l1.fits" then some (hdrL, [1, 2]) else none

/-- Empty state with one registered output queue. -/
def s0q : SState :=
  { db := { processed := [], store := [] }, output_queues := ["q1"],
    previews := [], sent := [] }

/-- Counterexample to claim C7 as stated: a LIGHT frame that seeds a
new stack renders a preview while a channel is registered, yet nothing
is delivered to it; and a DARK frame seeding also renders a preview,
so seeding-path preview rendering is not LIGHT-only. -/
theorem c7_counterexample_seed_preview :
    (Stacker.process_item cId fsL s0q "l1.fits").1.previews =
      ["cam_LIGHT_M31_R_10_100_20" ++ ".png"] ∧
    (Stacker.process_item cId fsL s0q "l1.fits").1.sent = [] ∧
    s0q.output_queues = ["q1"] ∧
    (Stacker.process_item cId fsD s0 "d1.fits").1.previews =
      ["cam_DARK_10_100_20" ++ ".png"] ∧
    (imgD [2, 4]).role ≠ some Role.LIGHT := by
  rw [process_item_seed cId fsL s0q "l1.fits" hdrL [1, 2] (imgL [1, 2])
      "cam_LIGHT_M31_R_10_100_20" rfl rfl (classify_hdrL [1, 2])
      (key_imgL [1, 2]) rfl,
    process_item_seed cId fsD s0 "d1.fits" hdrD [2, 4] (imgD [2, 4])
      "cam_DARK_10_100_20" rfl rfl (classify_hdrD [2, 4])
      (key_imgD [2, 4]) rfl]
  refine ⟨by simp [s0q], by simp [s0q], rfl, by simp [s0], by decide⟩

/-- Claim C7 as amended: on the merge path, every LIGHT preview render
delivers the artifact location to every queue registered at that
moment; on the seeding path a preview is rendered for the frame
whatever its role, and nothing is delivered to any queue. -/
theorem c7_amended_fanout :
    (∀ (c : Collab) (fs : String → Option (Header × Pixels)) (s : SState)
      (p : String) (hdr : Header) (d : Pixels) (img : Image) (k : String)
      (stf : Header × Pixels) (ref : Image) (k2 : String),
      s.db.is_already_processed p = false → fs p = some (hdr, d) →
      classify hdr d = Except.ok img → img.role = some Role.LIGHT →
      Image.key img = some k → lookupStore s.db.store k = some (some stf) →
      classify stf.1 stf.2 = Except.ok ref → Image.key ref = some k2 →
      (Stacker.process_item c fs s p).1.sent =
        s.sent ++ s.output_queues.map (fun q => (q, k2 ++ ".png")) ∧
      (Stacker.process_item c fs s p).1.previews =
        s.previews ++ [k2 ++ ".png"]) ∧
    (∀ (c : Collab) (fs : String → Option (Header × Pixels)) (s : SState)
      (p : String) (hdr : Header) (d : Pixels) (img : Image) (k : String),
      s.db.is_already_processed p = false → fs p = some (hdr, d) →
      classify hdr d = Except.ok img → Image.key img = some k →
      lookupStore s.db.store k = none →
      (Stacker.process_item c fs s p).1.sent = s.sent ∧
      (Stacker.process_item c fs s p).1.previews =
        s.previews ++ [k ++ ".png"]) := by
  constructor
  · intro c fs s p hdr d img k stf ref k2 h0 h1 h2 h3 h4 h5 h6 h7
    rw [process_item_light_merge c fs s p hdr d img k stf ref k2 h0 h1 h2 h3
      h4 h5 h6 h7]
    exact ⟨rfl, rfl⟩
  · intro c fs s p hdr d img k h0 h1 h2 h3 h4
    rw [process_item_seed c fs s p hdr d img k h0 h1 h2 h3 h4]
    exact ⟨rfl, rfl⟩

/-- The header stored for the LIGHT stack fixture. -/
def hdrStoredL : Header :=
  { instrume := some "cam", exptime := some 10, gain := some 100,
    ccdtemp := some 20, imagetyp := some "Light Frame",
    object := some "M31", filter := some "R", subcount := some 1 }

/-- The header stored for the FLAT stack fixture. -/
def hdrStoredF : Header :=
  { instrume := some "cam", exptime := some 10, gain := some 100,
    ccdtemp := some 20, imagetyp := some "Flat Frame",
    filter := some "R", subcount := some 1 }

/-- Decoding the stored LIGHT stack fixture. -/
theorem classify_hdrStoredL (d : Pixels) :
    classify hdrStoredL d = Except.ok (imgL d) := by
  norm_num [classify, need, hdrStoredL, imgL, round2_ten, rhe_four,
    tag_light_light]

/-- Decoding the stored FLAT stack fixture. -/
theorem classify_hdrStoredF (d : Pixels) :
    classify hdrStoredF d = Except.ok (imgF d) := by
  norm_num [classify, need, hdrStoredF, imgF, round2_ten, rhe_four,
    tag_flat_light, tag_flat_dark, tag_flat_flat]

/-- State with a LIGHT stack, a DARK stack and a FLAT stack for the
fixture configuration, and two registered queues. -/
def sL : SState :=
  { db := { processed := [],
            store := [("cam_LIGHT_M31_R_10_100_20", some (hdrStoredL, [6, 8])),
              ("cam_DARK_10_100_20", some (hdrStoredD, [1, 1])),
              ("cam_FLAT_R_100_20", some (hdrStoredF, [2, 2]))] },
    output_queues := ["qa", "qb"], previews := [], sent := [] }

/-- Filesystem serving one LIGHT frame against the populated store. -/
def fsL2 : String → Option (Header × Pixels) :=
  fun p => if p = "l2.fits" then some (hdrL, [10, 20]) else none

/-- Filesystem serving one FLAT frame against the populated store. -/
def fsF2 : String → Option (Header × Pixels) :=
  fun p => if p = "f2.fits" then some (hdrF, [4, 6]) else none

/-- Witness for the amended C7: the concrete LIGHT merge notifies both
registered queues, and the concrete DARK seed renders its preview but
delivers nothing. -/
theorem c7_witness :
    ((Stacker.process_item cId fsL2 sL "l2.fits").1.sent =
        sL.sent ++ sL.output_queues.map
          (fun q => (q, "cam_LIGHT_M31_R_10_100_20" ++ ".png")) ∧
      (Stacker.process_item cId fsL2 sL "l2.fits").1.previews =
        sL.previews ++ ["cam_LIGHT_M31_R_10_100_20" ++ ".png"]) ∧
    ((Stacker.process_item cId fsD s0 "d1.fits").1.sent = s0.sent ∧
      (Stacker.process_item cId fsD s0 "d1.fits").1.previews =
        s0.previews ++ ["cam_DARK_10_100_20" ++ ".png"]) :=
  ⟨c7_amended_fanout.1 cId fsL2 sL "l2.fits" hdrL [10, 20] (imgL [10, 20])
      "cam_LIGHT_M31_R_10_100_20" (hdrStoredL, [6, 8]) (imgL [6, 8])
      "cam_LIGHT_M31_R_10_100_20" rfl rfl (classify_hdrL [10, 20]) rfl
      (key_imgL [10, 20]) rfl (classify_hdrStoredL [6, 8]) (key_imgL [6, 8]),
    c7_amended_fanout.2 cId fsD s0 "d1.fits" hdrD [2, 4] (imgD [2, 4])
      "cam_DARK_10_100_20" rfl rfl (classify_hdrD [2, 4])
      (key_imgD [2, 4]) rfl⟩

/-! ## C8 -/

/-- Claim C8: for a LIGHT frame against an existing decodable stack the
stages compose in the order dark subtraction, flat division of the
dark-subtracted pixels, alignment against the existing stack, then
merge under the combination law; and a FLAT frame merged into an
existing stack is dark-subtracted (then smoothed) before merging. -/
theorem c8_stage_ordering :
    (∀ (c : Collab) (fs : String → Option (Header × Pixels)) (s : SState)
      (p : String) (hdr : Header) (d : Pixels) (img : Image) (k : String)
      (stf : Header × Pixels) (ref : Image) (k2 : String),
      s.db.is_already_processed p = false → fs p = some (hdr, d) →
      classify hdr d = Except.ok img → img.role = some Role.LIGHT →
      Image.key img = some k → lookupStore s.db.store k = some (some stf) →
      classify stf.1 stf.2 = Except.ok ref → Image.key ref = some k2 →
      Stacker.process_item c fs s p =
        (let i1 := Stacker.subtract_dark s.db img
         let i2 : Image := { i1 with data := Stacker.divide_flat s.db i1 }
         let i3 : Image := { i2 with data := c.register i2.data ref.data }
         let m : Image := { ref with
           data := mergeData ref.subcount ref.data i3.data,
           subcount := ref.subcount + 1 }
         ({ db := { processed := s.db.processed ++ [p],
                    store := insertStore s.db.store k2
                      (some (Image.fits_header m, m.data)) },
            output_queues := s.output_queues,
            previews := s.previews ++ [k2 ++ ".png"],
            sent := s.sent ++
              s.output_queues.map (fun q => (q, k2 ++ ".png")) }, none))) ∧
    (∀ (c : Collab) (fs : String → Option (Header × Pixels)) (s : SState)
      (p : String) (hdr : Header) (d : Pixels) (img : Image) (k : String)
      (stf : Header × Pixels) (ref : Image) (k2 : String),
      s.db.is_already_processed p = false → fs p = some (hdr, d) →
      classify hdr d = Except.ok img → img.role = some Role.FLAT →
      Image.key img = some k → lookupStore s.db.store k = some (some stf) →
      classify stf.1 stf.2 = Except.ok ref → Image.key ref = some k2 →
      Stacker.process_item c fs s p =
        (let i1 := Stacker.subtract_dark s.db img
         let m : Image := { ref with
           data := mergeData ref.subcount ref.data (c.smooth i1.data),
           subcount := ref.subcount + 1 }
         ({ db := { processed := s.db.processed ++ [p],
                    store := insertStore s.db.store k2
                      (some (Image.fits_header m, m.data)) },
            output_queues := s.output_queues,
            previews := s.previews,
            sent := s.sent }, none))) :=
  ⟨fun c fs s p hdr d img k stf ref k2 h0 h1 h2 h3 h4 h5 h6 h7 =>
      process_item_light_merge c fs s p hdr d img k stf ref k2
        h0 h1 h2 h3 h4 h5 h6 h7,
    fun c fs s p hdr d img k stf ref k2 h0 h1 h2 h3 h4 h5 h6 h7 =>
      process_item_flat_merge c fs s p hdr d img k stf ref k2
        h0 h1 h2 h3 h4 h5 h6 h7⟩

/-- Witness for C8: the concrete LIGHT merge and the concrete FLAT
merge against the populated store. -/
theorem c8_witness :
    Stacker.process_item cId fsL2 sL "l2.fits" =
      (let i1 := Stacker.subtract_dark sL.db (imgL [10, 20])
       let i2 : Image := { i1 with data := Stacker.divide_flat sL.db i1 }
       let i3 : Image :=
         { i2 with data := cId.register i2.data (imgL [6, 8]).data }
       let m : Image := { imgL [6, 8] with
         data := mergeData (imgL [6, 8]).subcount (imgL [6, 8]).data i3.data,
         subcount := (imgL [6, 8]).subcount + 1 }
       ({ db := { processed := sL.db.processed ++ ["l2.fits"],
                  store := insertStore sL.db.store "cam_LIGHT_M31_R_10_100_20"
                    (some (Image.fits_header m, m.data)) },
          output_queues := sL.output_queues,
          previews := sL.previews ++ ["cam_LIGHT_M31_R_10_100_20" ++ ".png"],
          sent := sL.sent ++ sL.output_queues.map
            (fun q => (q, "cam_LIGHT_M31_R_10_100_20" ++ ".png")) }, none)) ∧
    Stacker.process_item cId fsF2 sL "f2.fits" =
      (let i1 := Stacker.subtract_dark sL.db (imgF [4, 6])
       let m : Image := { imgF [2, 2] with
         data := mergeData (imgF [2, 2]).subcount (imgF [2, 2]).data
           (cId.smooth i1.data),
         subcount := (imgF [2, 2]).subcount + 1 }
       ({ db := { processed := sL.db.processed ++ ["f2.fits"],
                  store := insertStore sL.db.store "cam_FLAT_R_100_20"
                    (some (Image.fits_header m, m.data)) },
          output_queues := sL.output_queues,
          previews := sL.previews,
          sent := sL.sent }, none)) :=
  ⟨c8_stage_ordering.1 cId fsL2 sL "l2.fits" hdrL [10, 20] (imgL [10, 20])
      "cam_LIGHT_M31_R_10_100_20" (hdrStoredL, [6, 8]) (imgL [6, 8])
      "cam_LIGHT_M31_R_10_100_20" rfl rfl (classify_hdrL [10, 20]) rfl
      (key_imgL [10, 20]) rfl (classify_hdrStoredL [6, 8]) (key_imgL [6, 8]),
    c8_stage_ordering.2 cId fsF2 sL "f2.fits" hdrF [4, 6] (imgF [4, 6])
      "cam_FLAT_R_100_20" (hdrStoredF, [2, 2]) (imgF [2, 2])
      "cam_FLAT_R_100_20" rfl rfl (classify_hdrF [4, 6]) rfl
      (key_imgF [4, 6]) rfl (classify_hdrStoredF [2, 2]) (key_imgF [2, 2])⟩
